import Mathlib

/-!
# Verification of the record-linkage preprocessing pipeline

Shallow embedding of `src/dataset.py`: the field normalizers
(`preprocess_full_name`, `preprocess_phone_number`, `preprocess_email`,
`parse_date`), the three schema transformers (`preprocess_type_1/2/3`)
over a dataframe model, and the dispatch harness (`load_dfs`, `load_csv`).

Python strings are modelled as Lean `String`; Python exceptions are
modelled as values of type `PyExn` (a `try/except` block becomes a
`match` on `Except`).  The external libraries `phonenumbers` and
`email_validator` are collaborators, modelled as parameters
(`PhoneLib`, `EmailLib`).  Character classes (`\d`, `\s`, `lower()`)
are modelled over their ASCII behaviour, plus the Cyrillic ranges that
the type-3 transformer names explicitly.
-/

namespace RecordLinkage

/-- Python exception classes that the embedded code can raise. -/
inductive PyExn where
  | numberParseException
  | valueError
  | keyError (col : String)
  | attributeError
  | otherError
deriving DecidableEq, Repr

/-! ## Python string primitives -/

/-- Whitespace as recognised by `str.strip` / `str.split` / regex `\s`
(ASCII fragment: space, tab, newline, carriage return, vertical tab,
form feed). -/
def pyIsSpace (c : Char) : Bool :=
  c = ' ' || c = '\t' || c = '\n' || c = '\r' || c = '\x0b' || c = '\x0c'

/-- Drop trailing elements satisfying `p`. -/
def dropTrail (p : Char → Bool) (l : List Char) : List Char :=
  (l.reverse.dropWhile p).reverse

/-- Python `str.strip()`: remove leading and trailing whitespace. -/
def pyStrip (s : String) : String :=
  ⟨dropTrail pyIsSpace (s.data.dropWhile pyIsSpace)⟩

/-- Python `str.split(sep)` for a single-character separator, on char
lists: `"".split("-") == [""]`, `"a-b".split("-") == ["a","b"]`. -/
def splitOnChar (sep : Char) : List Char → List (List Char)
  | [] => [[]]
  | c :: rest =>
    match splitOnChar sep rest with
    | [] => [[]]
    | g :: gs => if c = sep then [] :: g :: gs else (c :: g) :: gs

/-- Python `str.split("-")`. -/
def pySplitDash (s : String) : List String :=
  (splitOnChar '-' s.data).map (fun l => ⟨l⟩)

/-- Python `str.split()` (no argument): split on runs of whitespace,
discarding empty pieces. -/
def pyWords (s : String) : List String :=
  ((s.data.splitOnP pyIsSpace).map (fun l => String.mk l)).filter (fun t => t ≠ "")

/-- Python `str.lower()` (ASCII fragment). -/
def pyLower (s : String) : String :=
  ⟨s.data.map Char.toLower⟩

/-- Python `int(str)`: optional surrounding whitespace, optional sign,
then a nonempty digit sequence in which single underscores may appear
between digits.  Returns `none` where `int()` raises `ValueError`. -/
def intDigits : List Char → Bool
  | [] => false
  | [c] => c.isDigit
  | c :: '_' :: rest => c.isDigit && intDigits rest
  | c :: rest => c.isDigit && intDigits rest

/-- Numeric value of a digit/underscore sequence. -/
def digitsVal (l : List Char) : Nat :=
  (l.filter (fun c => c ≠ '_')).foldl (fun a c => a * 10 + (c.toNat - 48)) 0

/-- Python `int(s)` returning `none` on `ValueError`. -/
def pyInt? (s : String) : Option Int :=
  let t := (pyStrip s).data
  match t with
  | '+' :: r => if intDigits r then some (digitsVal r) else none
  | '-' :: r => if intDigits r then some (-(digitsVal r : Int)) else none
  | r => if intDigits r then some (digitsVal r) else none

/-! ## `parse_date` (DateNormalizer) -/

/-- Is `y` a leap year (proleptic Gregorian, as `datetime` uses)? -/
def isLeap (y : Nat) : Bool :=
  (y % 4 = 0 && y % 100 ≠ 0) || y % 400 = 0

/-- Days in a month, as `datetime` validates them. -/
def daysInMonth (y m : Nat) : Nat :=
  if m = 2 then (if isLeap y then 29 else 28)
  else if m = 4 || m = 6 || m = 9 || m = 11 then 30
  else 31

/-- Numeric value of an all-digit string. -/
def strVal (s : String) : Nat :=
  s.data.foldl (fun a c => a * 10 + (c.toNat - 48)) 0

/-- `strptime` `%Y` component: exactly four digits. -/
def yearTok (s : String) : Option Nat :=
  if s.length = 4 ∧ s.data.all Char.isDigit then some (strVal s) else none

/-- `strptime` `%m` component: `[1-9]` or `01`..`12`. -/
def monthTok (s : String) : Option Nat :=
  if (s.length = 1 ∨ s.length = 2) ∧ s.data.all Char.isDigit
      ∧ 1 ≤ strVal s ∧ strVal s ≤ 12 then some (strVal s) else none

/-- `strptime` `%d` component: `[1-9]` or `01`..`31`. -/
def dayTok (s : String) : Option Nat :=
  if (s.length = 1 ∨ s.length = 2) ∧ s.data.all Char.isDigit
      ∧ 1 ≤ strVal s ∧ strVal s ≤ 31 then some (strVal s) else none

/-- `datetime.strptime(s, "%Y-%m-%d")`: `none` where it raises
`ValueError` (pattern mismatch, trailing data, or an invalid calendar
date such as `1995-02-31` or year `0000`). -/
def strptimeYMD (s : String) : Option (Nat × Nat × Nat) :=
  match pySplitDash s with
  | [a, b, c] =>
    match yearTok a, monthTok b, dayTok c with
    | some y, some m, some d =>
      if 1 ≤ y ∧ d ≤ daysInMonth y m then some (y, m, d) else none
    | _, _, _ => none
  | _ => none

/-- The character `'0'+n` for a digit value `n ≤ 9`. -/
def digitChar (n : Nat) : Char := Char.ofNat (48 + n)

/-- Zero-padded two-digit rendering (`strftime` `%m` / `%d`), for
values below 100. -/
def pad2 (n : Nat) : String :=
  ⟨[digitChar (n / 10 % 10), digitChar (n % 10)]⟩

/-- Zero-padded four-digit rendering (`strftime` `%Y`, per the
`datetime` documentation), for values below 10000. -/
def pad4 (n : Nat) : String :=
  ⟨[digitChar (n / 1000 % 10), digitChar (n / 100 % 10),
    digitChar (n / 10 % 10), digitChar (n % 10)]⟩

/-- `date_obj.strftime("%Y-%m-%d")`. -/
def fmtDate (y m d : Nat) : String :=
  pad4 y ++ "-" ++ pad2 m ++ "-" ++ pad2 d

/-- Year step of the `parse_date` fallback: 2 digits get prefix `19`
(value > 21) or `20`; length 3 gets prefix `1` (leading `9`) or `2`;
length 4 unchanged; other lengths fail.  `none` also covers the
`int()` `ValueError` swallowed by the surrounding `except`. -/
def normYearStep (year : String) : Option String :=
  if year.length = 2 then
    (pyInt? year).map (fun v => if v > 21 then "19" ++ year else "20" ++ year)
  else if year.length = 3 then
    some (if year.data.head? = some '9' then "1" ++ year else "2" ++ year)
  else if year.length = 4 then some year
  else none

/-- Month step of the fallback: length 1 is zero-padded with no check;
otherwise `int(month)` must lie in `[1, 12]` and the text is kept. -/
def normMonthStep (month : String) : Option String :=
  if month.length = 1 then some ("0" ++ month)
  else match pyInt? month with
    | some v => if 1 ≤ v ∧ v ≤ 12 then some month else none
    | none => none

/-- Day step of the fallback: length 1 is zero-padded with no check;
otherwise `int(day)` must lie in `[1, 31]` and the text is kept. -/
def normDayStep (day : String) : Option String :=
  if day.length = 1 then some ("0" ++ day)
  else match pyInt? day with
    | some v => if 1 ≤ v ∧ v ≤ 31 then some day else none
    | none => none

/-- `parse_date` from `src/dataset.py`: strip, try a strict
`%Y-%m-%d` parse, else split on `-` into exactly three parts and
normalize year, month and day; any swallowed exception yields `none`. -/
def parse_date (date_str : String) : Option String :=
  match strptimeYMD (pyStrip date_str) with
  | some (y, m, d) => some (fmtDate y m d)
  | none =>
    match pySplitDash (pyStrip date_str) with
    | [year, month, day] =>
      (normYearStep year).bind fun y =>
      (normMonthStep month).bind fun m =>
      (normDayStep day).bind fun d =>
      some (y ++ "-" ++ m ++ "-" ++ d)
    | _ => none

/-! ## `preprocess_full_name` (NameSplitter) -/

/-- `preprocess_full_name` from `src/dataset.py`: lower-case, split on
runs of whitespace, and distribute the tokens over
(first, middle, last). -/
def preprocess_full_name (full_name : String) : String × String × String :=
  let parts := pyWords (pyLower full_name)
  if parts.length ≥ 3 then
    (parts.headD "", " ".intercalate ((parts.drop 1).dropLast), parts.getLastD "")
  else if parts.length = 2 then
    (parts.headD "", "", parts.getLastD "")
  else if parts.length = 1 then
    (parts.headD "", "", "")
  else
    ("", "", "")

/-! ## `preprocess_phone_number` (PhoneNormalizer) -/

/-- Python `str.replace(old, new)` for single-character `old`/`new`. -/
def pyReplaceChar (old new : Char) (s : String) : String :=
  ⟨s.data.map (fun c => if c = old then new else c)⟩

/-- The digit-confusion repair chain of `preprocess_phone_number`:
`replace("i","1").replace("l","1").replace("o","0").replace("s","5")`
`.replace("I","1").replace("O","0").replace("S","5")`. -/
def phoneRepair (s : String) : String :=
  pyReplaceChar 'S' '5' (pyReplaceChar 'O' '0' (pyReplaceChar 'I' '1'
    (pyReplaceChar 's' '5' (pyReplaceChar 'o' '0' (pyReplaceChar 'l' '1'
      (pyReplaceChar 'i' '1' s))))))

/-- The `phonenumbers` library, an external collaborator (spec §6).
`parse` models `phonenumbers.parse(text, "RU")`; its `Except.error`
values are the exceptions it raises.  The parsed number is opaque to
the repository code, which only pipes it into `format`
(`format_number(·, INTERNATIONAL)`, total). -/
structure PhoneLib where
  parse : String → Except PyExn String
  format : String → String

/-- `preprocess_phone_number` from `src/dataset.py`: repair confusable
characters, parse, format; `except NumberParseException: return None`
— any other exception from the library propagates to the caller. -/
def preprocess_phone_number (lib : PhoneLib) (phone_number : String) :
    Except PyExn (Option String) :=
  match lib.parse (phoneRepair phone_number) with
  | .ok n => .ok (some (lib.format n))
  | .error e =>
    if e = PyExn.numberParseException then .ok none else .error e

/-! ## `preprocess_email` (EmailNormalizer) -/

/-- The `email_validator` library, an external collaborator (spec §6):
`validate` models `validate_email(text, check_deliverability=False)`
returning the canonical `.email` or raising. -/
structure EmailLib where
  validate : String → Except PyExn String

/-- `preprocess_email` from `src/dataset.py`: validate; any exception
whatsoever is swallowed (`except Exception`) and yields `None`. -/
def preprocess_email (lib : EmailLib) (email : String) : Option String :=
  match lib.validate email with
  | .ok v => some v
  | .error _ => none

/-! ## Dataframe model

A pandas `DataFrame` is modelled as a list of column labels plus one
list of cells per row, positionally aligned with the labels.  A cell
is a string or the null marker (`NaN`/`None`). -/

inductive Cell where
  | s (v : String)
  | null
deriving DecidableEq, Repr

structure DataFrame where
  cols : List String
  rows : List (List Cell)
deriving DecidableEq, Repr

/-- `pandas` `astype(str)`: a string cell is itself, `NaN` prints as
`"nan"`. -/
def Cell.asStr : Cell → String
  | .s v => v
  | .null => "nan"

/-- Calling a `str` method on a cell holding `NaN` raises
`AttributeError` in Python (`float` has no such method). -/
def Cell.pyStr : Cell → Except PyExn String
  | .s v => .ok v
  | .null => .error .attributeError

/-- Wrap a normalizer result: `None` becomes the null cell. -/
def optCell : Option String → Cell
  | some v => .s v
  | none => .null

/-- Index of a column label, `none` when the column is absent. -/
def idxOf? (n : String) : List String → Option Nat
  | [] => none
  | c :: cs => if c = n then some 0 else (idxOf? n cs).map (· + 1)

/-- `df[col].apply(f)` followed by `df.loc[:, col] = ...`: look the
column up (`KeyError` if absent) and rewrite each of its cells through
`f`, which may raise. -/
def applyCol (name : String) (f : Cell → Except PyExn Cell)
    (df : DataFrame) : Except PyExn DataFrame :=
  match idxOf? name df.cols with
  | none => .error (.keyError name)
  | some i => do
    let rows' ← df.rows.mapM (fun row => do
      let c' ← f (row.getD i .null)
      pure (row.set i c'))
    pure ⟨df.cols, rows'⟩

/-- A pandas `.str` accessor method: applied cell-wise, `NaN` cells
propagate as `NaN` (never raising). -/
def strAccessor (f : String → String) (c : Cell) : Except PyExn Cell :=
  match c with
  | .s v => .ok (.s (f v))
  | .null => .ok .null

/-- `df.loc[:, name] = vals`: overwrite the column if present,
otherwise append it (enlargement). -/
def setColVals (name : String) (vals : List Cell) (df : DataFrame) :
    DataFrame :=
  match idxOf? name df.cols with
  | some i => ⟨df.cols, df.rows.zipWith (fun row c => row.set i c) vals⟩
  | none => ⟨df.cols ++ [name], df.rows.zipWith (fun row c => row ++ [c]) vals⟩

/-- `chunk.loc[:, ["first_name","middle_name","last_name"]] =`
`chunk[src].apply(split).apply(pd.Series)`: read the source column
(`KeyError` if absent), split each value (raising `AttributeError` on
`NaN`), and write the three derived columns. -/
def setDerived3 (src : String) (split : String → String × String × String)
    (df : DataFrame) : Except PyExn DataFrame :=
  match idxOf? src df.cols with
  | none => .error (.keyError src)
  | some i => do
    let trips ← df.rows.mapM (fun row => do
      let v ← (row.getD i .null).pyStr
      pure (split v))
    let d1 := setColVals "first_name" (trips.map (fun t => .s t.1)) df
    let d2 := setColVals "middle_name" (trips.map (fun t => .s t.2.1)) d1
    pure (setColVals "last_name" (trips.map (fun t => .s t.2.2)) d2)

/-- `df.rename(columns={"uid": "unique_id"})`: relabel matching
columns; a missing `uid` is silently ignored. -/
def renameUid (df : DataFrame) : DataFrame :=
  ⟨df.cols.map (fun c => if c = "uid" then "unique_id" else c), df.rows⟩

/-- `df.drop(columns=[name])`: `KeyError` when the column is absent. -/
def dropColE (name : String) (df : DataFrame) : Except PyExn DataFrame :=
  match idxOf? name df.cols with
  | none => .error (.keyError name)
  | some i => .ok ⟨df.cols.eraseIdx i, df.rows.map (fun r => r.eraseIdx i)⟩

/-- Fuel-driven chunking of a row list into consecutive slices of size
`n` (the fuel is the list length, so the fuel never runs out). -/
def chunksOfAux (n : Nat) : Nat → List α → List (List α)
  | _, [] => []
  | 0, _ :: _ => []
  | fuel + 1, x :: xs => (x :: xs).take n :: chunksOfAux n fuel ((x :: xs).drop n)

/-- `[df[i : i + n] for i in range(0, df.shape[0], n)]`. -/
def chunksOf (n : Nat) (l : List α) : List (List α) :=
  chunksOfAux n l.length l

/-- Slice a dataframe into row chunks of size `n`. -/
def chunkDf (n : Nat) (df : DataFrame) : List DataFrame :=
  (chunksOf n df.rows).map (fun rs => ⟨df.cols, rs⟩)

/-- `pd.concat(chunks, ignore_index=True)` for chunks sharing one
column list (as all call sites do); `ValueError` on an empty list. -/
def concatDf : List DataFrame → Except PyExn DataFrame
  | [] => .error .valueError
  | d :: ds => .ok ⟨d.cols, ((d :: ds).map (fun x => x.rows)).flatten⟩

/-! ## Cell-level operations used by the transformers -/

/-- Regex `[^\d\-\/\.]` keeps digits and the separators `-`, `/`, `.`. -/
def isDateChar (c : Char) : Bool :=
  c.isDigit || c = '-' || c = '/' || c = '.'

/-- Regex class `[A-Za-zА-Яа-яЁё\s\-]` of the type-3 name cleaner. -/
def isNameChar (c : Char) : Bool :=
  c.isAlpha || ('А' ≤ c && c ≤ 'я') || c = 'Ё' || c = 'ё' || pyIsSpace c || c = '-'

/-- Map every whitespace run to a single space: a run of `' '` after
whitespace chars were mapped to `' '` collapses to one. -/
def squeeze : List Char → List Char
  | [] => []
  | [c] => [c]
  | c1 :: c2 :: rest =>
    if c1 = ' ' && c2 = ' ' then squeeze (c2 :: rest)
    else c1 :: squeeze (c2 :: rest)

/-- Regex `\s+` replaced by a single `" "`. -/
def collapseWs (s : String) : String :=
  ⟨squeeze (s.data.map (fun c => if pyIsSpace c then ' ' else c))⟩

/-- `.apply(preprocess_phone_number)`: calling `.replace` on a `NaN`
cell raises `AttributeError`; the normalizer itself may re-raise a
non-`NumberParseException` library error. -/
def phoneCellOp (plib : PhoneLib) (c : Cell) : Except PyExn Cell := do
  let v ← c.pyStr
  let r ← preprocess_phone_number plib v
  pure (optCell r)

/-- `.apply(preprocess_email)`: the normalizer swallows every
exception, so even a `NaN` cell degrades to `None`. -/
def emailCellOp (elib : EmailLib) (c : Cell) : Except PyExn Cell :=
  match c with
  | .s v => .ok (optCell (preprocess_email elib v))
  | .null => .ok .null

/-- `.apply(parse_date)` (cells are strings here: the preceding
`astype(str)` pass has run). -/
def parseDateCellOp (c : Cell) : Except PyExn Cell := do
  let v ← c.pyStr
  pure (optCell (parse_date v))

/-- `astype(str).str.replace(regex-class, "")` as a cell-wise filter. -/
def astypeFilterOp (keep : Char → Bool) (c : Cell) : Except PyExn Cell :=
  .ok (.s ⟨(c.asStr).data.filter keep⟩)

/-! ## The three schema transformers -/

/-- One chunk of `preprocess_type_1`: name split, phone, email. -/
def processChunk1 (plib : PhoneLib) (elib : EmailLib) (chunk : DataFrame) :
    Except PyExn DataFrame := do
  let c1 ← setDerived3 "full_name" preprocess_full_name chunk
  let c2 ← applyCol "phone" (phoneCellOp plib) c1
  applyCol "email" (emailCellOp elib) c2

/-- One chunk of `preprocess_type_2`: name split, birthdate strip +
parse, phone strip + parse, address whitespace cleanup. -/
def processChunk2 (plib : PhoneLib) (chunk : DataFrame) :
    Except PyExn DataFrame := do
  let c1 ← setDerived3 "full_name" preprocess_full_name chunk
  let c2 ← applyCol "birthdate" (astypeFilterOp isDateChar) c1
  let c3 ← applyCol "birthdate" parseDateCellOp c2
  let c4 ← applyCol "phone" (astypeFilterOp Char.isDigit) c3
  let c5 ← applyCol "phone" (phoneCellOp plib) c4
  let c6 ← applyCol "address"
    (fun c => .ok (.s (pyReplaceChar '\n' ' ' c.asStr))) c5
  applyCol "address" (strAccessor (fun v => pyStrip (collapseWs v))) c6

/-- The local `split_name` of `preprocess_type_3`: the same
token-count rule as `preprocess_full_name` but without lower-casing. -/
def split_name (full_name : String) : String × String × String :=
  let parts := pyWords full_name
  if parts.length ≥ 3 then
    (parts.headD "", " ".intercalate ((parts.drop 1).dropLast), parts.getLastD "")
  else if parts.length = 2 then
    (parts.headD "", "", parts.getLastD "")
  else if parts.length = 1 then
    (parts.headD "", "", "")
  else
    ("", "", "")

/-- Upper-case for the letters `isNameChar` admits (ASCII and the
Cyrillic block, which sits at a fixed offset of 32). -/
def tUp (c : Char) : Char :=
  if 'а' ≤ c && c ≤ 'я' then Char.ofNat (c.toNat - 32)
  else if c = 'ё' then 'Ё' else c.toUpper

/-- Lower-case counterpart of `tUp`. -/
def tDown (c : Char) : Char :=
  if 'А' ≤ c && c ≤ 'Я' then Char.ofNat (c.toNat + 32)
  else if c = 'Ё' then 'ё' else c.toLower

/-- A letter for the purposes of `str.title()` word boundaries. -/
def isLetterPy (c : Char) : Bool :=
  c.isAlpha || ('А' ≤ c && c ≤ 'я') || c = 'Ё' || c = 'ё'

/-- `str.title()`: upper-case each letter that follows a non-letter,
lower-case the rest of each letter run. -/
def pyTitleAux : Bool → List Char → List Char
  | _, [] => []
  | prev, c :: rest =>
    (if isLetterPy c then (if prev then tDown c else tUp c) else c)
      :: pyTitleAux (isLetterPy c) rest

/-- `str.title()` over a string. -/
def pyTitle (s : String) : String :=
  ⟨pyTitleAux false s.data⟩

/-- One chunk of `preprocess_type_3`: clean the `name` text, split it,
title-case the three parts, then birthdate strip + parse. -/
def processChunk3 (chunk : DataFrame) : Except PyExn DataFrame := do
  let c1 ← applyCol "name" (strAccessor (fun v => pyStrip (collapseWs v))) chunk
  let c2 ← applyCol "name"
    (strAccessor (fun v => ⟨v.data.filter isNameChar⟩)) c1
  let c3 ← setDerived3 "name" split_name c2
  let c4 ← applyCol "first_name" (strAccessor (fun v => pyStrip (pyTitle v))) c3
  let c5 ← applyCol "middle_name" (strAccessor (fun v => pyStrip (pyTitle v))) c4
  let c6 ← applyCol "last_name" (strAccessor (fun v => pyStrip (pyTitle v))) c5
  let c7 ← applyCol "birthdate" (astypeFilterOp isDateChar) c6
  applyCol "birthdate" parseDateCellOp c7

/-- `preprocess_type_1`: rename `uid`, process 1000-row chunks, then
drop `full_name` from the pre-chunk frame (whose value the subsequent
reassignment `df = pd.concat(...)` discards) and return the
concatenation of the processed chunks. -/
def preprocess_type_1 (plib : PhoneLib) (elib : EmailLib)
    (df0 : DataFrame) : Except PyExn DataFrame := do
  let processed ← (chunkDf 1000 (renameUid df0)).mapM (processChunk1 plib elib)
  let _ ← dropColE "full_name" (renameUid df0)
  concatDf processed

/-- `preprocess_type_2`: rename `uid`, process 1000-row chunks,
concatenate, then drop `full_name` from the concatenated result. -/
def preprocess_type_2 (plib : PhoneLib) (df0 : DataFrame) :
    Except PyExn DataFrame := do
  let processed ← (chunkDf 1000 (renameUid df0)).mapM (processChunk2 plib)
  let out ← concatDf processed
  dropColE "full_name" out

/-- `preprocess_type_3`: rename `uid`, process 1000-row chunks, then
drop `name` from the pre-chunk frame (discarded by the reassignment,
as in `preprocess_type_1`) and return the concatenated chunks. -/
def preprocess_type_3 (df0 : DataFrame) : Except PyExn DataFrame := do
  let processed ← (chunkDf 1000 (renameUid df0)).mapM processChunk3
  let _ ← dropColE "name" (renameUid df0)
  concatDf processed

/-! ## Dispatch harness

Reading the frames (SQL tables / CSV files) is an external
collaborator; the loaders take the already-read frames.  `pool.apply`
is synchronous, so a worker is a direct call whose exception
propagates. -/

/-- `load_dfs`: position 0 gets `preprocess_type_2`, position 1
`preprocess_type_3`, every other position `preprocess_type_1`. -/
def load_dfs (plib : PhoneLib) (elib : EmailLib)
    (dfs : List DataFrame) : Except PyExn (List DataFrame) :=
  dfs.enum.mapM (fun p =>
    if p.1 = 0 then preprocess_type_2 plib p.2
    else if p.1 = 1 then preprocess_type_3 p.2
    else preprocess_type_1 plib elib p.2)

/-- `load_csv` with `parallel=True`: position 1 gets
`preprocess_type_2`, position 2 `preprocess_type_3`, every other
position `preprocess_type_1`. -/
def load_csv_parallel (plib : PhoneLib) (elib : EmailLib)
    (dfs : List DataFrame) : Except PyExn (List DataFrame) :=
  dfs.enum.mapM (fun p =>
    if p.1 = 1 then preprocess_type_2 plib p.2
    else if p.1 = 2 then preprocess_type_3 p.2
    else preprocess_type_1 plib elib p.2)

/-- `load_csv` with `parallel=False`: same dispatch as the parallel
branch, by direct calls. -/
def load_csv_sequential (plib : PhoneLib) (elib : EmailLib)
    (dfs : List DataFrame) : Except PyExn (List DataFrame) :=
  dfs.enum.mapM (fun p =>
    if p.1 = 1 then preprocess_type_2 plib p.2
    else if p.1 = 2 then preprocess_type_3 p.2
    else preprocess_type_1 plib elib p.2)

/-! ## Generic lemmas about `Except` and `List.mapM` -/

theorem except_bind_ok {α β : Type} {ma : Except PyExn α}
    {f : α → Except PyExn β} {b : β} (h : (ma >>= f) = .ok b) :
    ∃ a, ma = .ok a ∧ f a = .ok b := by
  cases ma with
  | ok a => exact ⟨a, rfl, h⟩
  | error e => simp [Bind.bind, Except.bind] at h

theorem except_pure_ok {α : Type} {a b : α}
    (h : (pure a : Except PyExn α) = .ok b) : a = b := by
  simpa [pure, Except.pure] using h

theorem mapM_ok_forall₂ {α β : Type} {f : α → Except PyExn β} :
    ∀ {l : List α} {l' : List β}, l.mapM f = .ok l' →
      List.Forall₂ (fun a b => f a = .ok b) l l' := by
  intro l
  induction l with
  | nil =>
    intro l' h
    rw [List.mapM_nil] at h
    rw [← except_pure_ok h]
    exact List.Forall₂.nil
  | cons x xs ih =>
    intro l' h
    rw [List.mapM_cons] at h
    obtain ⟨b, hb, h2⟩ := except_bind_ok h
    obtain ⟨bs, hbs, h3⟩ := except_bind_ok h2
    rw [← except_pure_ok h3]
    exact List.Forall₂.cons hb (ih hbs)

theorem mapM_cons_error {α β : Type} {f : α → Except PyExn β} {x : α}
    {xs : List α} {e : PyExn} (h : f x = .error e) :
    (x :: xs).mapM f = .error e := by
  rw [List.mapM_cons, h]
  rfl

/-! ## Chunking lemmas -/

theorem chunksOfAux_flatten {α : Type} (n : Nat) (hn : 1 ≤ n) :
    ∀ (fuel : Nat) (l : List α), l.length ≤ fuel →
      (chunksOfAux n fuel l).flatten = l := by
  intro fuel
  induction fuel with
  | zero =>
    intro l hl
    cases l with
    | nil => rfl
    | cons x xs => simp at hl
  | succ fuel ih =>
    intro l hl
    cases l with
    | nil => rfl
    | cons x xs =>
      show ((x :: xs).take n :: chunksOfAux n fuel ((x :: xs).drop n)).flatten
          = x :: xs
      have hl' : xs.length + 1 ≤ fuel + 1 := by simpa using hl
      rw [List.flatten_cons, ih ((x :: xs).drop n)
        (by rw [List.length_drop, List.length_cons]; omega)]
      exact List.take_append_drop n (x :: xs)

theorem chunksOf_flatten {α : Type} (n : Nat) (hn : 1 ≤ n) (l : List α) :
    (chunksOf n l).flatten = l :=
  chunksOfAux_flatten n hn l.length l le_rfl

theorem chunkDf_cols {n : Nat} {df c : DataFrame}
    (h : c ∈ chunkDf n df) : c.cols = df.cols := by
  obtain ⟨rs, _, rfl⟩ := List.mem_map.mp h
  rfl

theorem chunkDf_cons (n : Nat) (df : DataFrame) (hr : df.rows ≠ []) :
    ∃ rest, chunkDf n df = ⟨df.cols, df.rows.take n⟩ :: rest := by
  obtain ⟨x, xs, hx⟩ : ∃ x xs, df.rows = x :: xs := by
    cases h : df.rows with
    | nil => exact absurd h hr
    | cons x xs => exact ⟨x, xs, rfl⟩
  refine ⟨(chunksOfAux n xs.length ((x :: xs).drop n)).map
    (fun rs => ⟨df.cols, rs⟩), ?_⟩
  unfold chunkDf chunksOf
  rw [hx]
  rfl

/-! ## Column and row bookkeeping for the dataframe operations -/

/-- The column list produced by `setColVals`: unchanged when the label
exists, appended otherwise. -/
def addCol (cols : List String) (n : String) : List String :=
  match idxOf? n cols with
  | some _ => cols
  | none => cols ++ [n]

theorem idxOf?_eq_none {n : String} :
    ∀ {l : List String}, idxOf? n l = none ↔ n ∉ l := by
  intro l
  induction l with
  | nil => simp [idxOf?]
  | cons c cs ih =>
    by_cases hc : c = n
    · subst hc
      simp [idxOf?]
    · simp only [idxOf?, if_neg hc, List.mem_cons]
      rw [Option.map_eq_none', ih]
      constructor
      · intro h hmem
        rcases hmem with h1 | h1
        · exact hc h1.symm
        · exact h h1
      · intro h h1
        exact h (Or.inr h1)

theorem mem_addCol {a n : String} {cols : List String} :
    a ∈ addCol cols n ↔ a ∈ cols ∨ a = n := by
  unfold addCol
  cases h : idxOf? n cols with
  | none => simp
  | some i =>
    have hn : n ∈ cols := by
      by_contra hmem
      rw [← idxOf?_eq_none] at hmem
      rw [h] at hmem
      cases hmem
    constructor
    · exact Or.inl
    · intro hh
      rcases hh with h1 | h1
      · exact h1
      · exact h1 ▸ hn

theorem setColVals_cols {n : String} {vals : List Cell} {df : DataFrame} :
    (setColVals n vals df).cols = addCol df.cols n := by
  unfold setColVals addCol
  cases idxOf? n df.cols <;> rfl

theorem setColVals_rows_len {n : String} {vals : List Cell} {df : DataFrame}
    (h : vals.length = df.rows.length) :
    (setColVals n vals df).rows.length = df.rows.length := by
  unfold setColVals
  cases idxOf? n df.cols <;> simp [List.length_zipWith] <;> omega

theorem applyCol_ok {n : String} {f : Cell → Except PyExn Cell}
    {df df' : DataFrame} (h : applyCol n f df = .ok df') :
    df'.cols = df.cols ∧ df'.rows.length = df.rows.length := by
  unfold applyCol at h
  cases hidx : idxOf? n df.cols with
  | none => rw [hidx] at h; cases h
  | some i =>
    rw [hidx] at h
    obtain ⟨rows', hrows, hpure⟩ := except_bind_ok h
    have := except_pure_ok hpure
    subst this
    exact ⟨rfl, ((mapM_ok_forall₂ hrows).length_eq).symm⟩

theorem applyCol_error_of_not_mem {n : String} {f : Cell → Except PyExn Cell}
    {df : DataFrame} (h : n ∉ df.cols) :
    applyCol n f df = .error (.keyError n) := by
  unfold applyCol
  rw [idxOf?_eq_none.mpr h]

/-- Shorthand for the three derived name columns. -/
def add3 (cols : List String) : List String :=
  addCol (addCol (addCol cols "first_name") "middle_name") "last_name"

theorem setDerived3_ok {src : String}
    {split : String → String × String × String} {df df' : DataFrame}
    (h : setDerived3 src split df = .ok df') :
    df'.cols = add3 df.cols ∧ df'.rows.length = df.rows.length := by
  unfold setDerived3 at h
  cases hidx : idxOf? src df.cols with
  | none => rw [hidx] at h; cases h
  | some i =>
    rw [hidx] at h
    obtain ⟨trips, htrips, hpure⟩ := except_bind_ok h
    have hlen : trips.length = df.rows.length :=
      ((mapM_ok_forall₂ htrips).length_eq).symm
    have := except_pure_ok hpure
    subst this
    constructor
    · rw [setColVals_cols, setColVals_cols, setColVals_cols]
      rfl
    · rw [setColVals_rows_len, setColVals_rows_len, setColVals_rows_len]
      · simpa using hlen
      · rw [setColVals_rows_len]
        · simpa using hlen
        · simpa using hlen
      · rw [setColVals_rows_len, setColVals_rows_len]
        · simpa using hlen
        · simpa using hlen
        · rw [setColVals_rows_len]
          · simpa using hlen
          · simpa using hlen

theorem setDerived3_error_of_not_mem {src : String}
    {split : String → String × String × String} {df : DataFrame}
    (h : src ∉ df.cols) :
    setDerived3 src split df = .error (.keyError src) := by
  unfold setDerived3
  rw [idxOf?_eq_none.mpr h]

theorem concatDf_ok {l : List DataFrame} {out : DataFrame}
    (h : concatDf l = .ok out) :
    ∃ d ds, l = d :: ds ∧ out.cols = d.cols ∧
      out.rows = (l.map (fun x => x.rows)).flatten := by
  cases l with
  | nil => cases h
  | cons d ds =>
    refine ⟨d, ds, rfl, ?_, ?_⟩ <;> cases h <;> rfl

theorem dropColE_ok {n : String} {df df' : DataFrame}
    (h : dropColE n df = .ok df') :
    df'.rows.length = df.rows.length := by
  unfold dropColE at h
  cases hidx : idxOf? n df.cols with
  | none => rw [hidx] at h; cases h
  | some i =>
    rw [hidx] at h
    cases h
    simp

/-! ## Per-chunk bookkeeping for the three transformers -/

theorem processChunk1_ok {plib : PhoneLib} {elib : EmailLib}
    {c c' : DataFrame} (h : processChunk1 plib elib c = .ok c') :
    c'.cols = add3 c.cols ∧ c'.rows.length = c.rows.length := by
  unfold processChunk1 at h
  obtain ⟨c1, h1, h'⟩ := except_bind_ok h
  obtain ⟨c2, h2, h3⟩ := except_bind_ok h'
  obtain ⟨hc1, hr1⟩ := setDerived3_ok h1
  obtain ⟨hc2, hr2⟩ := applyCol_ok h2
  obtain ⟨hc3, hr3⟩ := applyCol_ok h3
  exact ⟨by rw [hc3, hc2, hc1], by rw [hr3, hr2, hr1]⟩

theorem processChunk2_ok {plib : PhoneLib} {c c' : DataFrame}
    (h : processChunk2 plib c = .ok c') :
    c'.cols = add3 c.cols ∧ c'.rows.length = c.rows.length := by
  unfold processChunk2 at h
  obtain ⟨c1, h1, h'⟩ := except_bind_ok h
  obtain ⟨c2, h2, h'⟩ := except_bind_ok h'
  obtain ⟨c3, h3, h'⟩ := except_bind_ok h'
  obtain ⟨c4, h4, h'⟩ := except_bind_ok h'
  obtain ⟨c5, h5, h'⟩ := except_bind_ok h'
  obtain ⟨c6, h6, h7⟩ := except_bind_ok h'
  obtain ⟨hc1, hr1⟩ := setDerived3_ok h1
  obtain ⟨hc2, hr2⟩ := applyCol_ok h2
  obtain ⟨hc3, hr3⟩ := applyCol_ok h3
  obtain ⟨hc4, hr4⟩ := applyCol_ok h4
  obtain ⟨hc5, hr5⟩ := applyCol_ok h5
  obtain ⟨hc6, hr6⟩ := applyCol_ok h6
  obtain ⟨hc7, hr7⟩ := applyCol_ok h7
  exact ⟨by rw [hc7, hc6, hc5, hc4, hc3, hc2, hc1],
         by rw [hr7, hr6, hr5, hr4, hr3, hr2, hr1]⟩

theorem processChunk3_ok {c c' : DataFrame}
    (h : processChunk3 c = .ok c') :
    c'.cols = add3 c.cols ∧ c'.rows.length = c.rows.length := by
  unfold processChunk3 at h
  obtain ⟨c1, h1, h'⟩ := except_bind_ok h
  obtain ⟨c2, h2, h'⟩ := except_bind_ok h'
  obtain ⟨c3, h3, h'⟩ := except_bind_ok h'
  obtain ⟨c4, h4, h'⟩ := except_bind_ok h'
  obtain ⟨c5, h5, h'⟩ := except_bind_ok h'
  obtain ⟨c6, h6, h'⟩ := except_bind_ok h'
  obtain ⟨c7, h7, h8⟩ := except_bind_ok h'
  obtain ⟨hc1, hr1⟩ := applyCol_ok h1
  obtain ⟨hc2, hr2⟩ := applyCol_ok h2
  obtain ⟨hc3, hr3⟩ := setDerived3_ok h3
  obtain ⟨hc4, hr4⟩ := applyCol_ok h4
  obtain ⟨hc5, hr5⟩ := applyCol_ok h5
  obtain ⟨hc6, hr6⟩ := applyCol_ok h6
  obtain ⟨hc7, hr7⟩ := applyCol_ok h7
  obtain ⟨hc8, hr8⟩ := applyCol_ok h8
  refine ⟨?_, by rw [hr8, hr7, hr6, hr5, hr4, hr3, hr2, hr1]⟩
  rw [hc8, hc7, hc6, hc5, hc4, hc3, hc2, hc1]

theorem forall₂_rows_flatten_len {l l' : List DataFrame}
    (h : List.Forall₂ (fun c c' => c'.rows.length = c.rows.length) l l') :
    ((l'.map (fun x => x.rows)).flatten).length
      = ((l.map (fun x => x.rows)).flatten).length := by
  induction h with
  | nil => rfl
  | cons h1 _ ih =>
    simp only [List.map_cons, List.flatten_cons, List.length_append, h1, ih]

theorem chunkDf_map_rows (n : Nat) (df : DataFrame) :
    (chunkDf n df).map (fun x => x.rows) = chunksOf n df.rows := by
  unfold chunkDf
  rw [List.map_map]
  exact List.map_id _

/-! ## Transformer-level bookkeeping -/

theorem preprocess_type_1_ok {plib : PhoneLib} {elib : EmailLib}
    {df out : DataFrame} (h : preprocess_type_1 plib elib df = .ok out) :
    out.rows.length = df.rows.length ∧
      out.cols = add3 (renameUid df).cols := by
  unfold preprocess_type_1 at h
  obtain ⟨processed, hmap, h1⟩ := except_bind_ok h
  obtain ⟨_, _, hconcat⟩ := except_bind_ok h1
  obtain ⟨d, ds, hpr, hcols, hrows⟩ := concatDf_ok hconcat
  have hf2 := mapM_ok_forall₂ hmap
  constructor
  · have hlen := hf2.imp (fun _ _ hc => (processChunk1_ok hc).2)
    have : out.rows.length
        = (((chunkDf 1000 (renameUid df)).map (fun x => x.rows)).flatten).length := by
      rw [hrows]
      exact forall₂_rows_flatten_len hlen
    rw [this, chunkDf_map_rows, chunksOf_flatten 1000 (by norm_num)]
    rfl
  · have hchunks : chunkDf 1000 (renameUid df) ≠ [] := by
      intro hnil
      rw [hnil] at hf2
      cases hf2
      exact absurd hpr (by simp)
    obtain ⟨c0, cs, hc0⟩ : ∃ c0 cs, chunkDf 1000 (renameUid df) = c0 :: cs := by
      cases hcd : chunkDf 1000 (renameUid df) with
      | nil => exact absurd hcd hchunks
      | cons c0 cs => exact ⟨c0, cs, rfl⟩
    rw [hc0, hpr] at hf2
    cases hf2 with
    | cons hhead _ =>
      rw [hcols, (processChunk1_ok hhead).1,
        chunkDf_cols (by rw [hc0]; exact List.mem_cons_self c0 cs)]

theorem preprocess_type_2_ok {plib : PhoneLib}
    {df out : DataFrame} (h : preprocess_type_2 plib df = .ok out) :
    out.rows.length = df.rows.length := by
  unfold preprocess_type_2 at h
  obtain ⟨processed, hmap, h1⟩ := except_bind_ok h
  obtain ⟨mid, hconcat, hdrop⟩ := except_bind_ok h1
  obtain ⟨d, ds, hpr, hcols, hrows⟩ := concatDf_ok hconcat
  have hf2 := mapM_ok_forall₂ hmap
  have hlen := hf2.imp (fun _ _ hc => (processChunk2_ok hc).2)
  rw [dropColE_ok hdrop]
  have : mid.rows.length
      = (((chunkDf 1000 (renameUid df)).map (fun x => x.rows)).flatten).length := by
    rw [hrows]
    exact forall₂_rows_flatten_len hlen
  rw [this, chunkDf_map_rows, chunksOf_flatten 1000 (by norm_num)]
  rfl

theorem preprocess_type_3_ok {df out : DataFrame}
    (h : preprocess_type_3 df = .ok out) :
    out.rows.length = df.rows.length := by
  unfold preprocess_type_3 at h
  obtain ⟨processed, hmap, h1⟩ := except_bind_ok h
  obtain ⟨_, _, hconcat⟩ := except_bind_ok h1
  obtain ⟨d, ds, hpr, hcols, hrows⟩ := concatDf_ok hconcat
  have hf2 := mapM_ok_forall₂ hmap
  have hlen := hf2.imp (fun _ _ hc => (processChunk3_ok hc).2)
  have : out.rows.length
      = (((chunkDf 1000 (renameUid df)).map (fun x => x.rows)).flatten).length := by
    rw [hrows]
    exact forall₂_rows_flatten_len hlen
  rw [this, chunkDf_map_rows, chunksOf_flatten 1000 (by norm_num)]
  rfl

/-! ## Concrete instances used to exercise the theorems -/

/-- A `phonenumbers` stand-in whose `parse` always raises
`NumberParseException`. -/
def phoneStub : PhoneLib :=
  ⟨fun _ => .error .numberParseException, fun s => s⟩

/-- An `email_validator` stand-in whose `validate` always raises. -/
def emailStub : EmailLib :=
  ⟨fun _ => .error .valueError⟩

/-- A one-row batch with the type-1 schema. -/
def exDf1 : DataFrame :=
  ⟨["uid", "full_name", "phone", "email"],
   [[.s "u1", .s "Ann Lee", .s "89", .s "a@b"]]⟩

/-- What `preprocess_type_1` produces from `exDf1` under the stubs. -/
def exOut1 : DataFrame :=
  ⟨["unique_id", "full_name", "phone", "email",
    "first_name", "middle_name", "last_name"],
   [[.s "u1", .s "Ann Lee", .null, .null, .s "ann", .s "", .s "lee"]]⟩

/-- A one-row batch with the type-2 schema. -/
def exDf2 : DataFrame :=
  ⟨["uid", "full_name", "birthdate", "phone", "address"],
   [[.s "u2", .s "Ivan I Petrov", .s "95x-7-3", .s "8(912)", .s "  Street\n 5 "]]⟩

/-- What `preprocess_type_2` produces from `exDf2` under the stubs. -/
def exOut2 : DataFrame :=
  ⟨["unique_id", "birthdate", "phone", "address",
    "first_name", "middle_name", "last_name"],
   [[.s "u2", .s "1995-07-03", .null, .s "Street 5",
     .s "ivan", .s "i", .s "petrov"]]⟩

/-- A one-row batch with the type-3 schema. -/
def exDf3 : DataFrame :=
  ⟨["uid", "name", "birthdate"],
   [[.s "u3", .s "  bob  smith ", .s "95-7-3"]]⟩

/-- What `preprocess_type_3` produces from `exDf3`. -/
def exOut3 : DataFrame :=
  ⟨["unique_id", "name", "birthdate",
    "first_name", "middle_name", "last_name"],
   [[.s "u3", .s "bob smith", .s "1995-07-03",
     .s "Bob", .s "", .s "Smith"]]⟩

/-- A one-row type-1-shaped batch whose identifier column is absent. -/
def exDfNoUid : DataFrame :=
  ⟨["full_name", "phone", "email"], [[.s "A B", .s "1", .s "e"]]⟩

/-- What `preprocess_type_1` produces from `exDfNoUid`: it succeeds. -/
def exOutNoUid : DataFrame :=
  ⟨["full_name", "phone", "email", "first_name", "middle_name", "last_name"],
   [[.s "A B", .null, .null, .s "a", .s "", .s "b"]]⟩

/-! ## Claim C1 — row-count invariant -/

/-- C1: for every SchemaTransformer variant (`preprocess_type_1`,
`preprocess_type_2`, `preprocess_type_3`) and every input batch, the
output batch (whenever the transformer returns one) has exactly as
many records as the input batch: no record is dropped because a
field-level normalization failed. -/
theorem row_count_invariant :
    ∀ (plib : PhoneLib) (elib : EmailLib) (df out : DataFrame),
      (preprocess_type_1 plib elib df = .ok out →
        out.rows.length = df.rows.length)
      ∧ (preprocess_type_2 plib df = .ok out →
        out.rows.length = df.rows.length)
      ∧ (preprocess_type_3 df = .ok out →
        out.rows.length = df.rows.length) := by
  intro plib elib df out
  exact ⟨fun h => (preprocess_type_1_ok h).1,
         fun h => preprocess_type_2_ok h,
         fun h => preprocess_type_3_ok h⟩

/-- Witness for C1: the invariant discharged on concrete one-row
batches for each of the three variants. -/
theorem row_count_invariant_witness :
    exOut1.rows.length = exDf1.rows.length
    ∧ exOut2.rows.length = exDf2.rows.length
    ∧ exOut3.rows.length = exDf3.rows.length :=
  ⟨(row_count_invariant phoneStub emailStub exDf1 exOut1).1 (by rfl),
   (row_count_invariant phoneStub emailStub exDf2 exOut2).2.1 (by rfl),
   (row_count_invariant phoneStub emailStub exDf3 exOut3).2.2 (by rfl)⟩

/-! ## Claim C4 — the source-only column drops are dead code -/

/-- C4 (code bug): `preprocess_type_1` drops `full_name` — and
`preprocess_type_3` drops `name` — from the pre-chunk frame and only
then rebinds the result to the concatenation of the processed chunks,
so the drop is discarded and the source-only column survives into the
output, contrary to the spec's column table. -/
theorem source_columns_survive_drop :
    (preprocess_type_1 phoneStub emailStub exDf1 = .ok exOut1
      ∧ "full_name" ∈ exOut1.cols)
    ∧ (preprocess_type_3 exDf3 = .ok exOut3 ∧ "name" ∈ exOut3.cols) :=
  ⟨⟨by rfl, by decide⟩, ⟨by rfl, by decide⟩⟩

/-! ## Claim C5 — rename and missing-column behaviour -/

theorem renameUid_not_mem {a : String} {df : DataFrame}
    (ha : a ≠ "unique_id") (h : a ∉ df.cols) : a ∉ (renameUid df).cols := by
  intro hmem
  obtain ⟨c, hc, hrn⟩ := List.mem_map.mp hmem
  by_cases huid : c = "uid"
  · rw [if_pos huid] at hrn
    exact ha hrn.symm
  · rw [if_neg huid] at hrn
    exact h (hrn ▸ hc)

/-- A nonempty batch missing `full_name` makes the first chunk of
`preprocess_type_1` fail on the very first column access. -/
theorem preprocess_type_1_fatal {plib : PhoneLib} {elib : EmailLib}
    {df : DataFrame} (hr : df.rows ≠ []) (hc : "full_name" ∉ df.cols) :
    preprocess_type_1 plib elib df
      = .error (.keyError "full_name") := by
  obtain ⟨rest, hchunk⟩ := chunkDf_cons 1000 (renameUid df)
    (by simpa [renameUid] using hr)
  have hfail : processChunk1 plib elib ⟨(renameUid df).cols, (renameUid df).rows.take 1000⟩
      = .error (.keyError "full_name") := by
    have h1 : setDerived3 "full_name" preprocess_full_name
        (⟨(renameUid df).cols, (renameUid df).rows.take 1000⟩ : DataFrame)
        = .error (.keyError "full_name") :=
      setDerived3_error_of_not_mem (renameUid_not_mem (by decide) hc)
    unfold processChunk1
    rw [h1]
    rfl
  unfold preprocess_type_1
  rw [hchunk, mapM_cons_error hfail]
  rfl

/-- Same structural failure for `preprocess_type_2`. -/
theorem preprocess_type_2_fatal {plib : PhoneLib}
    {df : DataFrame} (hr : df.rows ≠ []) (hc : "full_name" ∉ df.cols) :
    preprocess_type_2 plib df = .error (.keyError "full_name") := by
  obtain ⟨rest, hchunk⟩ := chunkDf_cons 1000 (renameUid df)
    (by simpa [renameUid] using hr)
  have hfail : processChunk2 plib ⟨(renameUid df).cols, (renameUid df).rows.take 1000⟩
      = .error (.keyError "full_name") := by
    have h1 : setDerived3 "full_name" preprocess_full_name
        (⟨(renameUid df).cols, (renameUid df).rows.take 1000⟩ : DataFrame)
        = .error (.keyError "full_name") :=
      setDerived3_error_of_not_mem (renameUid_not_mem (by decide) hc)
    unfold processChunk2
    rw [h1]
    rfl
  unfold preprocess_type_2
  rw [hchunk, mapM_cons_error hfail]
  rfl

/-- C5 counterexample: an invocation of `preprocess_type_1` on a batch
from which the identifier column `uid` is entirely absent is NOT
fatal — `df.rename` silently ignores the missing key and the
transformer returns an output batch. -/
theorem missing_uid_not_fatal :
    "uid" ∉ exDfNoUid.cols
    ∧ preprocess_type_1 phoneStub emailStub exDfNoUid = .ok exOutNoUid :=
  ⟨by decide, by rfl⟩

/-- C5 as amended: each transformer renames `uid` to `unique_id`
exactly once per invocation, and an invocation on a nonempty batch in
which an expected DATA column (here `full_name`) is absent is fatal;
but a missing identifier column is silently ignored by the rename and
is not fatal. -/
theorem rename_and_missing_column :
    ∀ (plib : PhoneLib) (elib : EmailLib) (df : DataFrame),
      (df.rows ≠ [] → "full_name" ∉ df.cols →
        preprocess_type_1 plib elib df = .error (.keyError "full_name")
        ∧ preprocess_type_2 plib df = .error (.keyError "full_name"))
      ∧ (∀ out, preprocess_type_1 plib elib df = .ok out →
          "uid" ∉ out.cols ∧ ("uid" ∈ df.cols → "unique_id" ∈ out.cols))
      ∧ ("uid" ∉ df.cols → renameUid df = df) := by
  intro plib elib df
  refine ⟨fun hr hc => ⟨preprocess_type_1_fatal hr hc,
    preprocess_type_2_fatal hr hc⟩, ?_, ?_⟩
  · intro out hok
    have hcols := (preprocess_type_1_ok hok).2
    constructor
    · intro hmem
      rw [hcols] at hmem
      unfold add3 at hmem
      rw [mem_addCol] at hmem
      rcases hmem with hmem | hmem
      · rw [mem_addCol] at hmem
        rcases hmem with hmem | hmem
        · rw [mem_addCol] at hmem
          rcases hmem with hmem | hmem
          · obtain ⟨c, _, hrn⟩ := List.mem_map.mp hmem
            by_cases huid : c = "uid"
            · rw [if_pos huid] at hrn
              exact absurd hrn (by decide)
            · rw [if_neg huid] at hrn
              exact huid hrn
          · exact absurd hmem (by decide)
        · exact absurd hmem (by decide)
      · exact absurd hmem (by decide)
    · intro huid
      rw [hcols]
      unfold add3
      rw [mem_addCol]
      refine Or.inl ?_
      rw [mem_addCol]
      refine Or.inl ?_
      rw [mem_addCol]
      refine Or.inl ?_
      exact List.mem_map.mpr ⟨"uid", huid, by rfl⟩
  · intro huid
    have : df.cols.map (fun c => if c = "uid" then "unique_id" else c)
        = df.cols := by
      conv_rhs => rw [← List.map_id df.cols]
      refine List.map_congr_left (fun c hc => if_neg (fun h => ?_))
      rw [h] at hc
      exact huid hc
    unfold renameUid
    rw [this]

/-- Witness for the amended C5, discharged on a concrete nonempty
batch that lacks `full_name` and on `exDf1`. -/
theorem rename_and_missing_column_witness :
    preprocess_type_1 phoneStub emailStub
        ⟨["uid", "phone"], [[.s "u", .s "1"]]⟩
      = .error (.keyError "full_name")
    ∧ ("uid" ∉ exOut1.cols ∧ ("uid" ∈ exDf1.cols → "unique_id" ∈ exOut1.cols)) :=
  ⟨((rename_and_missing_column phoneStub emailStub
      ⟨["uid", "phone"], [[.s "u", .s "1"]]⟩).1
        (by decide) (by decide)).1,
   (rename_and_missing_column phoneStub emailStub exDf1).2.1 exOut1 (by rfl)⟩

/-! ## Claim C3 — digit-confusion repair -/

/-- The character substitution actually performed by the repair chain:
`i`, `l`, `I` become `1`; `o`, `O` become `0`; `s`, `S` become `5`;
everything else — including upper-case `L` — is left alone. -/
def phoneSubst (c : Char) : Char :=
  if c = 'i' ∨ c = 'l' ∨ c = 'I' then '1'
  else if c = 'o' ∨ c = 'O' then '0'
  else if c = 's' ∨ c = 'S' then '5'
  else c

theorem chain_app (c : Char) :
    (fun x => if x = 'S' then '5' else x)
      ((fun x => if x = 'O' then '0' else x)
        ((fun x => if x = 'I' then '1' else x)
          ((fun x => if x = 's' then '5' else x)
            ((fun x => if x = 'o' then '0' else x)
              ((fun x => if x = 'l' then '1' else x)
                ((fun x => if x = 'i' then '1' else x) c)))))) = phoneSubst c := by
  by_cases h1 : c = 'i'
  · subst h1; decide
  by_cases h2 : c = 'l'
  · subst h2; decide
  by_cases h3 : c = 'o'
  · subst h3; decide
  by_cases h4 : c = 's'
  · subst h4; decide
  by_cases h5 : c = 'I'
  · subst h5; decide
  by_cases h6 : c = 'O'
  · subst h6; decide
  by_cases h7 : c = 'S'
  · subst h7; decide
  simp [phoneSubst, h1, h2, h3, h4, h5, h6, h7]

theorem repair_list : ∀ l : List Char,
    List.map (fun x => if x = 'S' then '5' else x)
      (List.map (fun x => if x = 'O' then '0' else x)
        (List.map (fun x => if x = 'I' then '1' else x)
          (List.map (fun x => if x = 's' then '5' else x)
            (List.map (fun x => if x = 'o' then '0' else x)
              (List.map (fun x => if x = 'l' then '1' else x)
                (List.map (fun x => if x = 'i' then '1' else x) l))))))
      = List.map phoneSubst l := by
  intro l
  induction l with
  | nil => rfl
  | cons c cs ih =>
    simp only [List.map_cons]
    exact congrArg₂ List.cons (chain_app c) ih

/-- C3 counterexample: on input `"L"` the repair chain leaves the
upper-case `L` in place instead of replacing it by `"1"` — the
substitution is not case-insensitive for the letter `l`. -/
theorem upper_L_not_replaced :
    phoneRepair "L" = "L" ∧ ("L" : String) ≠ "1" ∧ phoneRepair "l" = "1" :=
  ⟨rfl, by decide, rfl⟩

/-- C3 as amended: the repair step is the character-wise substitution
replacing `i`, `l`, `I` by `1`, `o`, `O` by `0` and `s`, `S` by `5` —
case-insensitively except for the letter `l`, whose upper-case form
`L` is NOT replaced. -/
theorem phone_repair_charwise :
    (∀ s : String, phoneRepair s = ⟨s.data.map phoneSubst⟩)
    ∧ phoneSubst 'i' = '1' ∧ phoneSubst 'l' = '1' ∧ phoneSubst 'I' = '1'
    ∧ phoneSubst 'o' = '0' ∧ phoneSubst 'O' = '0'
    ∧ phoneSubst 's' = '5' ∧ phoneSubst 'S' = '5'
    ∧ phoneSubst 'L' = 'L' := by
  refine ⟨?_, by decide, by decide, by decide, by decide, by decide,
    by decide, by decide, by decide⟩
  intro s
  simp only [phoneRepair, pyReplaceChar]
  exact congrArg String.mk (repair_list s.data)

/-! ## Claim C8 — NameSplitter token-count table -/

/-- C8: `preprocess_full_name` lower-cases its input, splits it on
runs of whitespace, and distributes the tokens as the spec's table
describes; it always returns a triple of strings, in particular
`("", "", "")` on the empty input. -/
theorem name_splitter_cases :
    ∀ (s : String) (toks : List String), toks = pyWords (pyLower s) →
      (3 ≤ toks.length → preprocess_full_name s
        = (toks.headD "", " ".intercalate ((toks.drop 1).dropLast),
           toks.getLastD ""))
      ∧ (toks.length = 2 → preprocess_full_name s
        = (toks.headD "", "", toks.getLastD ""))
      ∧ (toks.length = 1 → preprocess_full_name s = (toks.headD "", "", ""))
      ∧ (toks.length = 0 → preprocess_full_name s = ("", "", ""))
      ∧ preprocess_full_name "" = ("", "", "") := by
  intro s toks htoks
  subst htoks
  unfold preprocess_full_name
  refine ⟨fun h => ?_, fun h => ?_, fun h => ?_, fun h => ?_, by rfl⟩
  · rw [if_pos h]
  · rw [if_neg (by omega), if_pos h]
  · rw [if_neg (by omega), if_neg (by omega), if_pos h]
  · rw [if_neg (by omega), if_neg (by omega), if_neg (by omega)]

/-- Witness for C8: the three-token, two-token and zero-token cases
discharged on concrete inputs. -/
theorem name_splitter_cases_witness :
    preprocess_full_name "Anna  Maria SMITH" = ("anna", "maria", "smith")
    ∧ preprocess_full_name "Ann Lee" = ("ann", "", "lee")
    ∧ preprocess_full_name "   " = ("", "", "") := by
  refine ⟨?_, ?_, ?_⟩
  · have h := (name_splitter_cases "Anna  Maria SMITH"
      ["anna", "maria", "smith"] (by decide)).1 (by decide)
    exact h
  · have h := (name_splitter_cases "Ann Lee"
      ["ann", "lee"] (by decide)).2.1 (by decide)
    exact h
  · have h := (name_splitter_cases "   " [] (by decide)).2.2.2.1 (by decide)
    exact h

/-! ## Claim C2 — totality of the field normalizers -/

/-- C2: every field normalizer is total.  Under the `phonenumbers`
contract that `parse` raises only `NumberParseException`,
`preprocess_phone_number` never propagates an exception;
`preprocess_email` swallows every exception unconditionally;
`parse_date` returns a canonical string or `none`; and
`preprocess_full_name` always returns a triple of strings. -/
theorem field_normalizers_total :
    ∀ (plib : PhoneLib) (elib : EmailLib) (s : String),
      (∀ t e, plib.parse t = .error e → e = PyExn.numberParseException) →
      (∃ r, preprocess_phone_number plib s = .ok r)
      ∧ ((∃ v, preprocess_email elib s = some v)
          ∨ preprocess_email elib s = none)
      ∧ ((∃ v, parse_date s = some v) ∨ parse_date s = none)
      ∧ (∃ f m l, preprocess_full_name s = (f, m, l)) := by
  intro plib elib s hlib
  refine ⟨?_, ?_, ?_, ?_⟩
  · unfold preprocess_phone_number
    cases hp : plib.parse (phoneRepair s) with
    | ok n => exact ⟨some (plib.format n), rfl⟩
    | error e => exact ⟨none, if_pos (hlib _ _ hp)⟩
  · unfold preprocess_email
    cases he : elib.validate s with
    | ok v => exact Or.inl ⟨v, rfl⟩
    | error e => exact Or.inr rfl
  · cases hd : parse_date s with
    | some v => exact Or.inl ⟨v, rfl⟩
    | none => exact Or.inr rfl
  · exact ⟨(preprocess_full_name s).1, (preprocess_full_name s).2.1,
      (preprocess_full_name s).2.2, rfl⟩

/-- Witness for C2, discharged on the always-raising stub libraries
and a concrete input. -/
theorem field_normalizers_total_witness :
    ∃ r, preprocess_phone_number phoneStub "89l2345678O" = .ok r :=
  (field_normalizers_total phoneStub emailStub "89l2345678O"
    (fun _ _ h => (Except.error.inj h).symm)).1

/-! ## Round-trip lemmas for the canonical date rendering -/

theorem mod10_le (n : Nat) : n % 10 ≤ 9 := by omega

theorem digitChar_toNat {k : Nat} (h : k ≤ 9) : (digitChar k).toNat = 48 + k := by
  interval_cases k <;> rfl

theorem digitChar_isDigit {k : Nat} (h : k ≤ 9) : (digitChar k).isDigit = true := by
  interval_cases k <;> rfl

theorem digitChar_ne_dash {k : Nat} (h : k ≤ 9) : digitChar k ≠ '-' := by
  interval_cases k <;> decide

theorem pyIsSpace_digitChar {k : Nat} (h : k ≤ 9) : pyIsSpace (digitChar k) = false := by
  interval_cases k <;> rfl

theorem dropWhile_all_false {p : Char → Bool} :
    ∀ {l : List Char}, (∀ c ∈ l, p c = false) → l.dropWhile p = l := by
  intro l h
  induction l with
  | nil => rfl
  | cons x xs ih =>
    rw [List.dropWhile_cons, h x (List.mem_cons_self x xs)]
    simp

theorem pyStrip_eq_self {s : String} (h : ∀ c ∈ s.data, pyIsSpace c = false) :
    pyStrip s = s := by
  unfold pyStrip dropTrail
  rw [dropWhile_all_false h,
    dropWhile_all_false (fun c hc => h c (List.mem_reverse.mp hc)),
    List.reverse_reverse]

theorem fmtDate_data (y m d : Nat) :
    (fmtDate y m d).data
      = [digitChar (y / 1000 % 10), digitChar (y / 100 % 10),
         digitChar (y / 10 % 10), digitChar (y % 10), '-',
         digitChar (m / 10 % 10), digitChar (m % 10), '-',
         digitChar (d / 10 % 10), digitChar (d % 10)] := rfl

theorem splitOnChar_ne_nil {sep : Char} : ∀ l : List Char, splitOnChar sep l ≠ [] := by
  intro l
  cases l with
  | nil => simp [splitOnChar]
  | cons x xs =>
    simp only [splitOnChar]
    cases splitOnChar sep xs with
    | nil => simp
    | cons g gs =>
      by_cases hx : x = sep <;> simp [hx]

theorem splitOnChar_no_sep {sep : Char} :
    ∀ {l : List Char}, (∀ c ∈ l, c ≠ sep) → splitOnChar sep l = [l] := by
  intro l h
  induction l with
  | nil => rfl
  | cons x xs ih =>
    simp only [splitOnChar]
    rw [ih (fun c hc => h c (List.mem_cons_of_mem x hc))]
    simp [h x (List.mem_cons_self x xs)]

theorem splitOnChar_sep_append {sep : Char} (b : List Char) :
    ∀ {a : List Char}, (∀ c ∈ a, c ≠ sep) →
      splitOnChar sep (a ++ sep :: b) = a :: splitOnChar sep b := by
  intro a h
  induction a with
  | nil =>
    obtain ⟨g, gs, hgs⟩ : ∃ g gs, splitOnChar sep b = g :: gs := by
      cases hc : splitOnChar sep b with
      | nil => exact absurd hc (splitOnChar_ne_nil b)
      | cons g gs => exact ⟨g, gs, rfl⟩
    simp only [List.nil_append, splitOnChar, hgs]
    simp
  | cons x xs ih =>
    simp only [List.cons_append, splitOnChar, List.append_eq]
    rw [ih (fun c hc => h c (List.mem_cons_of_mem x hc))]
    simp [h x (List.mem_cons_self x xs)]

theorem pad4_no_dash (y : Nat) : ∀ c ∈ (pad4 y).data, c ≠ '-' := by
  intro c hc
  simp only [pad4, List.mem_cons, List.not_mem_nil, or_false] at hc
  rcases hc with rfl | rfl | rfl | rfl <;> exact digitChar_ne_dash (mod10_le _)

theorem pad2_no_dash (m : Nat) : ∀ c ∈ (pad2 m).data, c ≠ '-' := by
  intro c hc
  simp only [pad2, List.mem_cons, List.not_mem_nil, or_false] at hc
  rcases hc with rfl | rfl <;> exact digitChar_ne_dash (mod10_le _)

theorem pySplitDash_fmtDate (y m d : Nat) :
    pySplitDash (fmtDate y m d) = [pad4 y, pad2 m, pad2 d] := by
  unfold pySplitDash
  rw [show (fmtDate y m d).data
      = (pad4 y).data ++ '-' :: ((pad2 m).data ++ '-' :: (pad2 d).data) from rfl]
  rw [splitOnChar_sep_append _ (pad4_no_dash y),
    splitOnChar_sep_append _ (pad2_no_dash m),
    splitOnChar_no_sep (pad2_no_dash d)]
  rfl

theorem fmtDate_no_space (y m d : Nat) :
    ∀ c ∈ (fmtDate y m d).data, pyIsSpace c = false := by
  intro c hc
  rw [fmtDate_data] at hc
  simp only [List.mem_cons, List.not_mem_nil, or_false] at hc
  rcases hc with rfl | rfl | rfl | rfl | rfl | rfl | rfl | rfl | rfl | rfl
  · exact pyIsSpace_digitChar (mod10_le _)
  · exact pyIsSpace_digitChar (mod10_le _)
  · exact pyIsSpace_digitChar (mod10_le _)
  · exact pyIsSpace_digitChar (mod10_le _)
  · rfl
  · exact pyIsSpace_digitChar (mod10_le _)
  · exact pyIsSpace_digitChar (mod10_le _)
  · rfl
  · exact pyIsSpace_digitChar (mod10_le _)
  · exact pyIsSpace_digitChar (mod10_le _)

theorem strVal_pad4 {y : Nat} (hy : y ≤ 9999) : strVal (pad4 y) = y := by
  have e1 := digitChar_toNat (mod10_le (y / 1000))
  have e2 := digitChar_toNat (mod10_le (y / 100))
  have e3 := digitChar_toNat (mod10_le (y / 10))
  have e4 := digitChar_toNat (mod10_le y)
  simp only [strVal, pad4, List.foldl_cons, List.foldl_nil, e1, e2, e3, e4]
  omega

theorem strVal_pad2 {m : Nat} (hm : m ≤ 99) : strVal (pad2 m) = m := by
  have e1 := digitChar_toNat (mod10_le (m / 10))
  have e2 := digitChar_toNat (mod10_le m)
  simp only [strVal, pad2, List.foldl_cons, List.foldl_nil, e1, e2]
  omega

theorem pad4_all_digit (y : Nat) : (pad4 y).data.all Char.isDigit = true := by
  simp only [pad4, List.all_cons, List.all_nil,
    digitChar_isDigit (mod10_le _), Bool.and_self]

theorem pad2_all_digit (m : Nat) : (pad2 m).data.all Char.isDigit = true := by
  simp only [pad2, List.all_cons, List.all_nil,
    digitChar_isDigit (mod10_le _), Bool.and_self]

theorem yearTok_pad4 {y : Nat} (hy : y ≤ 9999) : yearTok (pad4 y) = some y := by
  unfold yearTok
  rw [if_pos ⟨rfl, pad4_all_digit y⟩, strVal_pad4 hy]

theorem monthTok_pad2 {m : Nat} (h1 : 1 ≤ m) (h12 : m ≤ 12) :
    monthTok (pad2 m) = some m := by
  unfold monthTok
  have hv := strVal_pad2 (show m ≤ 99 by omega)
  rw [if_pos ⟨Or.inr rfl, pad2_all_digit m, by omega, by omega⟩, hv]

theorem dayTok_pad2 {d : Nat} (h1 : 1 ≤ d) (h31 : d ≤ 31) :
    dayTok (pad2 d) = some d := by
  unfold dayTok
  have hv := strVal_pad2 (show d ≤ 99 by omega)
  rw [if_pos ⟨Or.inr rfl, pad2_all_digit d, by omega, by omega⟩, hv]

theorem daysInMonth_le (y m : Nat) : daysInMonth y m ≤ 31 := by
  unfold daysInMonth
  split_ifs <;> omega

theorem strptimeYMD_fmtDate {y m d : Nat} (hy1 : 1 ≤ y) (hy : y ≤ 9999)
    (hm1 : 1 ≤ m) (hm12 : m ≤ 12) (hd1 : 1 ≤ d) (hd : d ≤ daysInMonth y m) :
    strptimeYMD (fmtDate y m d) = some (y, m, d) := by
  unfold strptimeYMD
  rw [pySplitDash_fmtDate]
  simp only [yearTok_pad4 hy, monthTok_pad2 hm1 hm12,
    dayTok_pad2 hd1 (le_trans hd (daysInMonth_le y m))]
  rw [if_pos ⟨hy1, hd⟩]

theorem parse_date_canonical_fixed {y m d : Nat} (hy1 : 1 ≤ y) (hy : y ≤ 9999)
    (hm1 : 1 ≤ m) (hm12 : m ≤ 12) (hd1 : 1 ≤ d) (hd : d ≤ daysInMonth y m) :
    parse_date (fmtDate y m d) = some (fmtDate y m d) := by
  unfold parse_date
  rw [pyStrip_eq_self (fmtDate_no_space y m d),
    strptimeYMD_fmtDate hy1 hy hm1 hm12 hd1 hd]

/-! ## Claim C6 — the `parse_date` fallback table -/

/-- C6: when the strict parse fails and the input splits on `-` into
exactly three components, `parse_date` normalizes them by the spec's
table: a 2-digit year gets prefix `19` (value > 21) or `20`; a
3-digit year gets prefix `1` (leading `9`) or `2`; a 4-digit year is
unchanged; any other year length fails; a 1-character month or day is
zero-padded, and otherwise a month outside `[1,12]` or a day outside
`[1,31]` yields `none`; in particular
`parse_date "95-7-3" = "1995-07-03"` and
`parse_date "13-99-01" = none`. -/
theorem parse_date_fallback_rules :
    ∀ (s year month day : String),
      strptimeYMD (pyStrip s) = none →
      pySplitDash (pyStrip s) = [year, month, day] →
      (parse_date s
          = (normYearStep year).bind fun y =>
            (normMonthStep month).bind fun m =>
            (normDayStep day).bind fun d => some (y ++ "-" ++ m ++ "-" ++ d))
      ∧ (∀ v, year.length = 2 → pyInt? year = some v →
          normYearStep year
            = some (if v > 21 then "19" ++ year else "20" ++ year))
      ∧ (year.length = 3 →
          normYearStep year
            = some (if year.data.head? = some '9' then "1" ++ year
                    else "2" ++ year))
      ∧ (year.length = 4 → normYearStep year = some year)
      ∧ (year.length ≠ 2 → year.length ≠ 3 → year.length ≠ 4 →
          normYearStep year = none)
      ∧ (month.length = 1 → normMonthStep month = some ("0" ++ month))
      ∧ (∀ v, month.length ≠ 1 → pyInt? month = some v →
          ¬(1 ≤ v ∧ v ≤ 12) → normMonthStep month = none)
      ∧ (day.length = 1 → normDayStep day = some ("0" ++ day))
      ∧ (∀ v, day.length ≠ 1 → pyInt? day = some v →
          ¬(1 ≤ v ∧ v ≤ 31) → normDayStep day = none)
      ∧ parse_date "95-7-3" = some "1995-07-03"
      ∧ parse_date "13-99-01" = none := by
  intro s year month day hstrict hsplit
  refine ⟨?_, ?_, ?_, ?_, ?_, ?_, ?_, ?_, ?_, by rfl, by rfl⟩
  · unfold parse_date
    rw [hstrict, hsplit]
  · intro v h2 hint
    unfold normYearStep
    rw [if_pos h2, hint]
    rfl
  · intro h3
    unfold normYearStep
    rw [if_neg (by omega), if_pos h3]
  · intro h4
    unfold normYearStep
    rw [if_neg (by omega), if_neg (by omega), if_pos h4]
  · intro h2 h3 h4
    unfold normYearStep
    rw [if_neg h2, if_neg h3, if_neg h4]
  · intro h1
    unfold normMonthStep
    rw [if_pos h1]
  · intro v h1 hint hrange
    unfold normMonthStep
    rw [if_neg h1, hint]
    exact if_neg hrange
  · intro h1
    unfold normDayStep
    rw [if_pos h1]
  · intro v h1 hint hrange
    unfold normDayStep
    rw [if_neg h1, hint]
    exact if_neg hrange

/-- Witness for C6, discharged at the spec's own example
`"95-7-3"`. -/
theorem parse_date_fallback_rules_witness :
    parse_date "95-7-3" = some "1995-07-03"
    ∧ normYearStep "95" = some "1995"
    ∧ normMonthStep "7" = some "07" := by
  have h := parse_date_fallback_rules "95-7-3" "95" "7" "3" (by rfl) (by rfl)
  refine ⟨h.2.2.2.2.2.2.2.2.2.1, ?_, h.2.2.2.2.2.1 (by rfl)⟩
  have h2 := h.2.1 95 (by rfl) (by rfl)
  rw [h2]
  rfl

/-! ## Claim C10 — no range check on 1-character components -/

/-- C10: in the fallback path the month and day checks are
independent and skipped for 1-character components: a 1-character
month or day is zero-padded with no range check (so `"1995-0-0"`
yields `"1995-00-00"`), and a multi-digit day only has to lie in
`[1,31]` — `normDayStep` does not even see the month — so
calendar-impossible dates come back non-null
(`"1995-2-31"` yields `"1995-02-31"`). -/
theorem fallback_no_range_check :
    (∀ mo : String, mo.length = 1 → normMonthStep mo = some ("0" ++ mo))
    ∧ (∀ d : String, d.length = 1 → normDayStep d = some ("0" ++ d))
    ∧ (∀ (d : String) (v : Int), d.length ≠ 1 → pyInt? d = some v →
        1 ≤ v → v ≤ 31 → normDayStep d = some d)
    ∧ parse_date "1995-0-0" = some "1995-00-00"
    ∧ parse_date "1995-2-31" = some "1995-02-31" := by
  refine ⟨?_, ?_, ?_, by rfl, by rfl⟩
  · intro mo h1
    unfold normMonthStep
    rw [if_pos h1]
  · intro d h1
    unfold normDayStep
    rw [if_pos h1]
  · intro d v h1 hint hlo hhi
    unfold normDayStep
    rw [if_neg h1, hint]
    exact if_pos ⟨hlo, hhi⟩

/-- Witness for C10: the unchecked zero-padding and the month-free
day check discharged on concrete components. -/
theorem fallback_no_range_check_witness :
    normMonthStep "0" = some "00" ∧ normDayStep "31" = some "31" :=
  ⟨fallback_no_range_check.1 "0" (by rfl),
   fallback_no_range_check.2.2.1 "31" 31 (by decide) (by rfl)
     (by decide) (by decide)⟩

/-! ## Claim C7 — idempotence of `parse_date` -/

/-- C7 counterexample: `parse_date` is not idempotent.  The fallback
pads a 1-character month with no validation, so
`parse_date "95-a-1" = "1995-0a-01"`, but re-applying `parse_date` to
that non-null result returns `none` (`int("0a")` raises, swallowed to
`None`), not the same value. -/
theorem parse_date_not_idempotent :
    parse_date "95-a-1" = some "1995-0a-01"
    ∧ parse_date "1995-0a-01" = none :=
  ⟨by rfl, by rfl⟩

/-- C7 as amended: an input that is the canonical rendering
`YYYY-MM-DD` of a valid calendar date (four-digit year) strictly
parses and is returned unchanged, so such inputs are fixed points of
`parse_date`; but idempotence does not extend to fallback results
(see the counterexample). -/
theorem parse_date_canonical_idempotent :
    ∀ y m d : Nat, 1000 ≤ y → y ≤ 9999 → 1 ≤ m → m ≤ 12 → 1 ≤ d →
      d ≤ daysInMonth y m →
      strptimeYMD (fmtDate y m d) = some (y, m, d)
      ∧ parse_date (fmtDate y m d) = some (fmtDate y m d) := by
  intro y m d hy1000 hy hm1 hm12 hd1 hd
  exact ⟨strptimeYMD_fmtDate (by omega) hy hm1 hm12 hd1 hd,
    parse_date_canonical_fixed (by omega) hy hm1 hm12 hd1 hd⟩

/-- Witness for the amended C7: the spec's own idempotence example. -/
theorem parse_date_canonical_idempotent_witness :
    parse_date "1995-07-23" = some "1995-07-23" := by
  have h := (parse_date_canonical_idempotent 1995 7 23 (by omega) (by omega)
    (by omega) (by omega) (by omega) (by decide)).2
  have heq : fmtDate 1995 7 23 = "1995-07-23" := by decide
  rw [heq] at h
  exact h

/-! ## Claim C9 — dispatch assignment of the two load paths -/

/-- C9 (code bug): the parallel and sequential branches of `load_csv`
dispatch identically, but `load_dfs` assigns `preprocess_type_2/3/1`
to positions 0/1/2 where `load_csv` assigns `preprocess_type_1/2/3`,
so the SQL path and the CSV path run different transformers at every
position: on the three schema-shaped example batches `load_dfs`
aborts with `KeyError: birthdate` while `load_csv` succeeds. -/
theorem dispatch_mismatch :
    (∀ (plib : PhoneLib) (elib : EmailLib) (dfs : List DataFrame),
      load_csv_parallel plib elib dfs = load_csv_sequential plib elib dfs)
    ∧ load_dfs phoneStub emailStub [exDf1, exDf2, exDf3]
        = .error (.keyError "birthdate")
    ∧ load_csv_sequential phoneStub emailStub [exDf1, exDf2, exDf3]
        = .ok [exOut1, exOut2, exOut3] :=
  ⟨fun _ _ _ => rfl, by rfl, by rfl⟩

end RecordLinkage
